import Mathlib

/-!
Verification development for the open-canvas conversation-orchestration
engine (Python source under `apps/`).  The Python data model and the
operations under study are shallowly embedded as executable Lean
definitions; external model calls are passed in as oracle functions, and
raised `ValueError`s become `Except.error` values.
-/

namespace OpenCanvas

/-! ## Basic data model

Mirrors `apps/agents/open_canvas/state.py` (`OpenCanvasState`) and the
artifact dictionaries built by the node functions.  Message objects keep
only the fields the embedded code inspects (class/role and string
content). -/

/-- Message role, standing for the `langchain` message classes
(`HumanMessage`, `AIMessage`, `SystemMessage`, tool messages). -/
inductive Role where
  | human
  | ai
  | system
  | tool
deriving DecidableEq, Repr

/-- A chat message: role plus string content. -/
structure Message where
  role : Role
  content : String
deriving DecidableEq, Repr

/-- Artifact content kind: the `type` key of an artifact-content dict,
either `"text"` or `"code"`. -/
inductive ContentKind where
  | text
  | code
deriving DecidableEq, Repr

/-- One artifact version: the dict
`{index, type, title, language, code | fullMarkdown}`.  The `body` field
stands for the content carrier (`fullMarkdown` for text, `code` for
code). -/
structure ArtifactContent where
  index : Nat
  kind : ContentKind
  title : String
  language : String
  body : String
deriving DecidableEq, Repr

/-- The artifact dict `{currentIndex, contents}`.  `currentIndex` is
optional because `generate_artifact_node` builds the initial artifact
without it. -/
structure Artifact where
  currentIndex : Option Nat
  contents : List ArtifactContent
deriving DecidableEq, Repr

/-- `artifact.get("currentIndex", len(contents))`, the read pattern used
by `update_highlighted_text_node`. -/
def Artifact.currentIndexEff (a : Artifact) : Nat :=
  a.currentIndex.getD a.contents.length

/-- Modelled from the spec: the repository's `utils.get_artifact_content`
helper is not under `src/` (only its callers are).  Per the spec's
artifact invariant, `currentIndex` references an existing version; the
helper returns the version whose `index` equals the (defaulted) current
index. -/
def get_artifact_content (a : Artifact) : Option ArtifactContent :=
  a.contents.find? (fun c => c.index == a.currentIndexEff)

/-- Highlight payload for code artifacts: `{startCharIndex, endCharIndex}`. -/
structure CodeHighlight where
  startCharIndex : Nat
  endCharIndex : Nat
deriving DecidableEq, Repr

/-- Highlight payload for markdown artifacts:
`{selectedText, markdownBlock, fullMarkdown}`. -/
structure TextHighlight where
  selectedText : String
  markdownBlock : String
  fullMarkdown : String
deriving DecidableEq, Repr

/-- The transient conversation state (`OpenCanvasState` TypedDict).
`internalMessages` models the `_messages` key, which the nodes read via
`state.get("_messages", state.get("messages", []))`. -/
structure OpenCanvasState where
  messages : List Message := []
  internalMessages : Option (List Message) := none
  artifact : Option Artifact := none
  next : Option String := none
  highlightedCode : Option CodeHighlight := none
  highlightedText : Option TextHighlight := none
  language : Option String := none
  artifactLength : Option String := none
  regenerateWithEmojis : Option Bool := none
  readingLevel : Option String := none
  addComments : Option Bool := none
  addLogs : Option Bool := none
  portLanguage : Option String := none
  fixBugs : Option Bool := none
  customQuickActionId : Option String := none
  webSearchEnabled : Option Bool := none
deriving DecidableEq, Repr

/-- `state.get("_messages", state.get("messages", []))`. -/
def effMessages (s : OpenCanvasState) : List Message :=
  s.internalMessages.getD s.messages

/-- Python truthiness of an optional string flag (`None` and `""` are
falsy). -/
def optStrTruthy : Option String → Bool
  | none => false
  | some s => !s.isEmpty

/-- Python truthiness of an optional boolean flag (`None` and `False`
are falsy). -/
def optBoolTruthy : Option Bool → Bool
  | none => false
  | some b => b

/-! ## Thread search (C9)

Embeds `MemoryThreadStorage.search_threads`
(`apps/agents/store/memory_storage.py`, sort by `updated_at` descending
then `[:limit]`; the DynamoDB backend in
`apps/agents/store/dynamodb_storage.py` sorts and truncates the same
way) and the `ThreadStore.search` wrapper
(`apps/agents/threads/store.py`), which keeps only the first message of
each thread for title display. -/

/-- A stored thread row `{thread_id, metadata, created_at, updated_at}`.
Metadata is an association list standing for the Python dict. -/
structure ThreadRec where
  thread_id : String
  metadata : List (String × String)
  created_at : String
  updated_at : String
deriving DecidableEq, Repr

/-- Storage contents: the thread table plus the per-thread message
logs. -/
structure ThreadStorage where
  threads : List ThreadRec
  msgs : String → List Message

/-- Insert a thread into a list kept sorted by `updated_at` descending
(`threads.sort(key=..., reverse=True)` sorts the stored rows this
way). -/
def insertByUpdatedDesc (t : ThreadRec) : List ThreadRec → List ThreadRec
  | [] => [t]
  | h :: rest =>
    if h.updated_at < t.updated_at then t :: h :: rest
    else h :: insertByUpdatedDesc t rest

/-- Sort threads by `updated_at` descending. -/
def sortByUpdatedDesc : List ThreadRec → List ThreadRec
  | [] => []
  | h :: rest => insertByUpdatedDesc h (sortByUpdatedDesc rest)

/-- `search_threads(limit)` of the storage backends: all threads sorted
by `updated_at` descending, truncated to `limit`. -/
def search_threads (st : ThreadStorage) (limit : Nat) : List ThreadRec :=
  (sortByUpdatedDesc st.threads).take limit

/-- One entry of the `ThreadStore.search` result: the thread row plus
`values.messages` restricted to the first message. -/
structure ThreadEntry where
  thread_id : String
  metadata : List (String × String)
  values_messages : List Message
  created_at : String
  updated_at : String
deriving DecidableEq, Repr

/-- `ThreadStore.search(limit)`: wraps each storage row, putting only the
thread's first message (`messages[0] if messages else None`, wrapped as a
singleton or empty list) into `values`. -/
def ThreadStore.search (st : ThreadStorage) (limit : Nat) : List ThreadEntry :=
  (search_threads st limit).map fun t =>
    { thread_id := t.thread_id
      metadata := t.metadata
      values_messages := (st.msgs t.thread_id).take 1
      created_at := t.created_at
      updated_at := t.updated_at }

/-! ## Thread search metadata filter (C10)

Embeds the filter loop of `search_threads` in
`apps/agents/threads/routes.py` and `apps/backend/api/threads/service.py`
(both implement the identical loop): a thread is dropped only when some
filter key is present in its metadata with a different value. -/

/-- The filter match test: for each `(key, value)` of the filter,
`key in metadata and metadata[key] != value` disqualifies the thread. -/
def thread_matches_filter (filt md : List (String × String)) : Bool :=
  filt.all fun kv =>
    match md.lookup kv.1 with
    | some w => w == kv.2
    | none => true

/-- Applying the filter to a search result list. -/
def filter_threads (filt : List (String × String)) (threads : List ThreadEntry) :
    List ThreadEntry :=
  threads.filter fun t => thread_matches_filter filt t.metadata

/-! ### Sortedness lemmas for the thread search -/

/-- Membership in an insertion step. -/
theorem mem_insertByUpdatedDesc {t x : ThreadRec} {l : List ThreadRec} :
    x ∈ insertByUpdatedDesc t l ↔ x = t ∨ x ∈ l := by
  induction l with
  | nil => simp [insertByUpdatedDesc]
  | cons h rest ih =>
    by_cases hc : h.updated_at < t.updated_at
    · rw [insertByUpdatedDesc, if_pos hc]
      simp
    · rw [insertByUpdatedDesc, if_neg hc]
      simp [ih]
      tauto

/-- Inserting preserves the descending-`updated_at` pairwise order. -/
theorem pairwise_insertByUpdatedDesc {t : ThreadRec} {l : List ThreadRec}
    (h : l.Pairwise (fun a b => b.updated_at ≤ a.updated_at)) :
    (insertByUpdatedDesc t l).Pairwise (fun a b => b.updated_at ≤ a.updated_at) := by
  induction l with
  | nil => simp [insertByUpdatedDesc]
  | cons hd rest ih =>
    rcases List.pairwise_cons.mp h with ⟨hhd, hrest⟩
    by_cases hc : hd.updated_at < t.updated_at
    · rw [insertByUpdatedDesc, if_pos hc]
      refine List.pairwise_cons.mpr ⟨?_, h⟩
      intro y hy
      rcases List.mem_cons.mp hy with rfl | hyr
      · exact le_of_lt hc
      · exact le_trans (hhd y hyr) (le_of_lt hc)
    · simp only [insertByUpdatedDesc, if_neg hc]
      refine List.pairwise_cons.mpr ⟨?_, ih hrest⟩
      intro y hy
      rcases mem_insertByUpdatedDesc.mp hy with rfl | hyr
      · exact not_lt.mp hc
      · exact hhd y hyr

/-- The sort routine yields a descending-`updated_at` pairwise-ordered
list. -/
theorem pairwise_sortByUpdatedDesc (l : List ThreadRec) :
    (sortByUpdatedDesc l).Pairwise (fun a b => b.updated_at ≤ a.updated_at) := by
  induction l with
  | nil => simp [sortByUpdatedDesc]
  | cons h rest ih => exact pairwise_insertByUpdatedDesc ih

end OpenCanvas

namespace OpenCanvas

/-- C9: for every store content and limit `K`, `search(limit=K)` returns
at most `K` entries, sorted by `updated_at` descending, and each entry's
values carry exactly the first message of that thread. -/
theorem search_threads_limit_sorted_first_message
    (st : ThreadStorage) (K : Nat) :
    (ThreadStore.search st K).length ≤ K
    ∧ ((ThreadStore.search st K).map (·.updated_at)).Pairwise
        (fun a b => b ≤ a)
    ∧ ∀ e ∈ ThreadStore.search st K,
        e.values_messages = (st.msgs e.thread_id).take 1 := by
  refine ⟨?_, ?_, ?_⟩
  · simp only [ThreadStore.search, List.length_map, search_threads]
    exact le_trans (List.length_take_le _ _) (le_refl _)
  · rw [List.pairwise_map]
    have hs : (search_threads st K).Pairwise
        (fun a b => b.updated_at ≤ a.updated_at) :=
      (pairwise_sortByUpdatedDesc st.threads).sublist
        (List.take_sublist _ _)
    rw [ThreadStore.search, List.pairwise_map]
    exact hs.imp (fun h => h)
  · intro e he
    rcases List.mem_map.mp he with ⟨t, _, rfl⟩
    rfl

/-- Witness for C9 at a concrete two-thread store with limit 1. -/
theorem search_threads_limit_sorted_first_message_witness :
    (ThreadStore.search
        ⟨[⟨"t1", [], "a", "2024-01-01"⟩, ⟨"t2", [], "b", "2024-02-01"⟩],
         fun tid => if tid = "t2" then [⟨Role.human, "hello"⟩, ⟨Role.ai, "hi"⟩] else []⟩
        1).length ≤ 1
    ∧ ∀ e ∈ ThreadStore.search
        ⟨[⟨"t1", [], "a", "2024-01-01"⟩, ⟨"t2", [], "b", "2024-02-01"⟩],
         fun tid => if tid = "t2" then [⟨Role.human, "hello"⟩, ⟨Role.ai, "hi"⟩] else []⟩
        1, e.values_messages =
          ((fun tid => if tid = "t2" then [⟨Role.human, "hello"⟩, ⟨Role.ai, "hi"⟩]
            else ([] : List Message)) e.thread_id).take 1 := by
  refine ⟨(search_threads_limit_sorted_first_message _ 1).1, ?_⟩
  exact (search_threads_limit_sorted_first_message _ 1).2.2

/-- C10: the metadata filter is lenient about missing keys: a thread
matches a filter iff every filter key that is present in its metadata
carries an equal value; in particular a thread with empty metadata
matches every filter.  (The same loop appears in
`apps/agents/threads/routes.py` and
`apps/backend/api/threads/service.py`.) -/
theorem thread_filter_lenient (filt md : List (String × String)) :
    (thread_matches_filter filt md = true ↔
      ∀ kv ∈ filt, ∀ w, md.lookup kv.1 = some w → w = kv.2)
    ∧ thread_matches_filter filt [] = true
    ∧ ∀ (threads : List ThreadEntry) (t : ThreadEntry),
        t ∈ filter_threads filt threads ↔
          t ∈ threads ∧ thread_matches_filter filt t.metadata = true := by
  refine ⟨?_, ?_, ?_⟩
  · rw [thread_matches_filter, List.all_eq_true]
    constructor
    · intro h kv hkv w hw
      have := h kv hkv
      rw [hw] at this
      exact beq_iff_eq.mp this
    · intro h kv hkv
      cases hlk : md.lookup kv.1 with
      | none => simp [hlk]
      | some w => simp [hlk, h kv hkv w hlk]
  · rw [thread_matches_filter, List.all_eq_true]
    intro kv _
    simp [List.lookup]
  · intro threads t
    simp [filter_threads, List.mem_filter]

/-- Witness for C10 at a concrete filter/metadata pair. -/
theorem thread_filter_lenient_witness :
    (thread_matches_filter [("user", "alice")] [("topic", "x")] = true ↔
      ∀ kv ∈ [("user", "alice")], ∀ w,
        List.lookup kv.1 [("topic", "x")] = some w → w = kv.2)
    ∧ thread_matches_filter [("user", "alice")] [] = true := by
  exact ⟨(thread_filter_lenient [("user", "alice")] [("topic", "x")]).1,
    (thread_filter_lenient [("user", "alice")] [("topic", "x")]).2.1⟩

/-! ## Router (C1)

Embeds `generate_path_node` of `apps/agents/open_canvas/graph.py`
(lines 25-45, the purely flag-driven router used by the agents graph)
and `generate_path` of `apps/agents/open_canvas/generate_path.py`
(lines 329-445; same flag checks, but its no-flag fallback calls
`dynamic_determine_path`, which consults the model).  The model's routing
answer is abstracted as the `llmRoute` oracle parameter: it stands for
the route parsed out of the LLM response, validated against the
`valid_routes` list exactly as in `dynamic_determine_path`. -/

/-- Operation tags, the string values assigned to `state["next"]`. -/
inductive RouteTag where
  | updateArtifact
  | updateHighlightedText
  | rewriteArtifactTheme
  | rewriteCodeArtifactTheme
  | customAction
  | webSearch
  | rewriteArtifact
  | generateArtifact
  | replyToGeneralInput
deriving DecidableEq, Repr

/-- `language or artifactLength or regenerateWithEmojis or readingLevel`. -/
def md_theme_flag (s : OpenCanvasState) : Bool :=
  optStrTruthy s.language || optStrTruthy s.artifactLength ||
    optBoolTruthy s.regenerateWithEmojis || optStrTruthy s.readingLevel

/-- `addComments or addLogs or portLanguage or fixBugs`. -/
def code_theme_flag (s : OpenCanvasState) : Bool :=
  optBoolTruthy s.addComments || optBoolTruthy s.addLogs ||
    optStrTruthy s.portLanguage || optBoolTruthy s.fixBugs

/-- Some explicit command flag is set (any of the first six router
conditions). -/
def any_command_flag (s : OpenCanvasState) : Bool :=
  s.highlightedCode.isSome || s.highlightedText.isSome ||
    md_theme_flag s || code_theme_flag s ||
    optStrTruthy s.customQuickActionId || optBoolTruthy s.webSearchEnabled

/-- The flag-only router node (`generate_path_node`, graph.py 25-45). -/
def generate_path_node (s : OpenCanvasState) : RouteTag :=
  if s.highlightedCode.isSome then .updateArtifact
  else if s.highlightedText.isSome then .updateHighlightedText
  else if md_theme_flag s then .rewriteArtifactTheme
  else if code_theme_flag s then .rewriteCodeArtifactTheme
  else if optStrTruthy s.customQuickActionId then .customAction
  else if optBoolTruthy s.webSearchEnabled then .webSearch
  else if s.artifact.isSome then .rewriteArtifact
  else .generateArtifact

/-- `"rewriteArtifact" if current_artifact_content else "generateArtifact"`. -/
def artifact_route (s : OpenCanvasState) : RouteTag :=
  if s.artifact.isSome then .rewriteArtifact else .generateArtifact

/-- `valid_routes` of `dynamic_determine_path`. -/
def valid_dynamic_routes (s : OpenCanvasState) : List RouteTag :=
  if s.artifact.isSome then [.rewriteArtifact, .replyToGeneralInput]
  else [.generateArtifact, .replyToGeneralInput]

/-- `dynamic_determine_path`, with the parsed LLM answer as the
`llmRoute` parameter: an answer outside `valid_routes` falls back to the
artifact-presence default. -/
def dynamic_determine_path (llmRoute : RouteTag) (s : OpenCanvasState) : RouteTag :=
  if (valid_dynamic_routes s).contains llmRoute then llmRoute else artifact_route s

/-- The full routing node `generate_path`: explicit flag checks first, in
the same order as `generate_path_node`, then the LLM-driven fallback. -/
def generate_path (llmRoute : RouteTag) (s : OpenCanvasState) : RouteTag :=
  if s.highlightedCode.isSome then .updateArtifact
  else if s.highlightedText.isSome then .updateHighlightedText
  else if md_theme_flag s then .rewriteArtifactTheme
  else if code_theme_flag s then .rewriteCodeArtifactTheme
  else if optStrTruthy s.customQuickActionId then .customAction
  else if optBoolTruthy s.webSearchEnabled then .webSearch
  else dynamic_determine_path llmRoute s

/-- First-match evaluation of a priority table, defaulting to
`generateArtifact`. -/
def first_match : List (Bool × RouteTag) → RouteTag
  | [] => .generateArtifact
  | (c, r) :: rest => if c then r else first_match rest

/-- Modelled from the spec: the router contract's fixed priority list
(code highlight, text highlight, theme flags, custom-action id, search
flag, artifact exists, otherwise generate), written as an explicit
first-match table to be compared with the source router. -/
def route_spec (s : OpenCanvasState) : RouteTag :=
  first_match
    [(s.highlightedCode.isSome, .updateArtifact),
     (s.highlightedText.isSome, .updateHighlightedText),
     (md_theme_flag s, .rewriteArtifactTheme),
     (code_theme_flag s, .rewriteCodeArtifactTheme),
     (optStrTruthy s.customQuickActionId, .customAction),
     (optBoolTruthy s.webSearchEnabled, .webSearch),
     (s.artifact.isSome, .rewriteArtifact)]

/-- A state with no command flags but an existing artifact: the
`generate_path` fallback consults the model. -/
def routerFallbackState : OpenCanvasState :=
  { artifact := some ⟨some 1, [⟨1, .text, "Title", "", "hello"⟩]⟩ }

/-- C1 counterexample: with the very same command-flag combination (all
flags empty, artifact present), `generate_path` returns different tags
for different model answers, so the deployed router is not a
deterministic function of the flags and artifact presence. -/
theorem generate_path_not_deterministic :
    generate_path .replyToGeneralInput routerFallbackState = .replyToGeneralInput
    ∧ generate_path .rewriteArtifact routerFallbackState = .rewriteArtifact
    ∧ RouteTag.replyToGeneralInput ≠ RouteTag.rewriteArtifact := by
  refine ⟨rfl, rfl, by decide⟩

/-- C1 amended: the flag-only router node follows the fixed priority
table exactly (hence is pure and deterministic), and whenever any
explicit command flag is set, the full `generate_path` router agrees
with it independently of the model's answer; only the no-flag fallback
is delegated to the model. -/
theorem generate_path_priority_order :
    (∀ s : OpenCanvasState, generate_path_node s = route_spec s)
    ∧ ∀ (llm : RouteTag) (s : OpenCanvasState),
        any_command_flag s = true → generate_path llm s = generate_path_node s := by
  constructor
  · intro s
    rfl
  · intro llm s h
    unfold any_command_flag at h
    unfold generate_path generate_path_node
    by_cases h1 : s.highlightedCode.isSome
    · simp [h1]
    · by_cases h2 : s.highlightedText.isSome
      · simp [h1, h2]
      · by_cases h3 : md_theme_flag s
        · simp [h1, h2, h3]
        · by_cases h4 : code_theme_flag s
          · simp [h1, h2, h3, h4]
          · by_cases h5 : optStrTruthy s.customQuickActionId
            · simp [h1, h2, h3, h4, h5]
            · by_cases h6 : optBoolTruthy s.webSearchEnabled
              · simp [h1, h2, h3, h4, h5, h6]
              · simp [h1, h2, h3, h4, h5, h6] at h

/-- Witness for the amended C1 at a concrete flagged state. -/
theorem generate_path_priority_order_witness :
    generate_path .replyToGeneralInput { webSearchEnabled := some true } =
      generate_path_node { webSearchEnabled := some true }
    ∧ generate_path_node { webSearchEnabled := some true } =
        route_spec { webSearchEnabled := some true } := by
  exact ⟨generate_path_priority_order.2 .replyToGeneralInput
      { webSearchEnabled := some true } (by decide),
    generate_path_priority_order.1 { webSearchEnabled := some true }⟩

/-! ## Post-processing terminal fork (C7)

Embeds the routing decision of `clean_state_node` and
`conditionally_generate_title` in
`apps/backend/agents/open_canvas/nodes/post_processing.py`. -/

/-- `CHARACTER_MAX` (post_processing.py line 19). -/
def CHARACTER_MAX : Nat := 300000

/-- The terminal route chosen after clean-state. -/
inductive TerminalRoute where
  | generateTitle
  | summarizer
  | terminate
deriving DecidableEq, Repr

/-- Number of `HumanMessage`s in the conversation. -/
def user_message_count (msgs : List Message) : Nat :=
  msgs.countP (fun m => m.role == .human)

/-- Total character count of the message contents. -/
def total_chars (msgs : List Message) : Nat :=
  (msgs.map (fun m => m.content.length)).sum

/-- `simple_token_calculator`: summarize iff the accumulated transcript
exceeds `CHARACTER_MAX` characters. -/
def simple_token_calculator (s : OpenCanvasState) : TerminalRoute :=
  if total_chars (effMessages s) > CHARACTER_MAX then .summarizer else .terminate

/-- `conditionally_generate_title` (post_processing.py 205-233). -/
def conditionally_generate_title (s : OpenCanvasState) : TerminalRoute :=
  if s.artifact.isSome && (user_message_count s.messages == 1) then .generateTitle
  else if s.messages.length ≤ 4 then .generateTitle
  else simple_token_calculator s

/-- The `_next_route` decision computed inline by `clean_state_node`
(post_processing.py 160-188). -/
def clean_state_route (s : OpenCanvasState) : TerminalRoute :=
  if s.artifact.isSome && (user_message_count s.messages == 1) then .generateTitle
  else if s.messages.length ≤ 4 then .generateTitle
  else if total_chars (effMessages s) > CHARACTER_MAX then .summarizer
  else .terminate

/-- A conversation with exactly one user message, five messages total,
and no artifact. -/
def forkCounterState : OpenCanvasState :=
  { messages := [⟨.human, "x"⟩, ⟨.ai, "y"⟩, ⟨.ai, "z"⟩, ⟨.ai, "w"⟩, ⟨.ai, "v"⟩] }

/-- C7 counterexample: a state with exactly one user message (but no
artifact and more than four messages) terminates instead of routing to
title generation, contradicting the claim's "exactly one user message so
far" disjunct. -/
theorem terminal_fork_counterexample :
    user_message_count forkCounterState.messages = 1
    ∧ forkCounterState.messages.length = 5
    ∧ forkCounterState.artifact = none
    ∧ clean_state_route forkCounterState = .terminate
    ∧ conditionally_generate_title forkCounterState = .terminate := by
  refine ⟨by decide, by decide, rfl, by decide, by decide⟩

/-- C7 amended: the fork routes to title generation exactly when an
artifact exists and there is exactly one user message, or the total
message count is at most 4; otherwise it routes to summarization exactly
when the transcript character count exceeds `CHARACTER_MAX` (300,000);
otherwise it terminates.  `clean_state_node`'s inline decision and
`conditionally_generate_title` agree everywhere. -/
theorem terminal_fork_characterization (s : OpenCanvasState) :
    clean_state_route s = conditionally_generate_title s
    ∧ (clean_state_route s = .generateTitle ↔
        (s.artifact.isSome = true ∧ user_message_count s.messages = 1)
          ∨ s.messages.length ≤ 4)
    ∧ (clean_state_route s = .summarizer ↔
        ¬((s.artifact.isSome = true ∧ user_message_count s.messages = 1)
            ∨ s.messages.length ≤ 4)
          ∧ total_chars (effMessages s) > CHARACTER_MAX)
    ∧ (clean_state_route s = .terminate ↔
        ¬((s.artifact.isSome = true ∧ user_message_count s.messages = 1)
            ∨ s.messages.length ≤ 4)
          ∧ total_chars (effMessages s) ≤ CHARACTER_MAX) := by
  refine ⟨rfl, ?_, ?_, ?_⟩ <;>
    · unfold clean_state_route
      by_cases h1 : (s.artifact.isSome && (user_message_count s.messages == 1)) = true
      · rw [if_pos h1]
        simp only [Bool.and_eq_true, beq_iff_eq] at h1
        simp [h1]
      · rw [if_neg h1]
        simp only [Bool.and_eq_true, beq_iff_eq] at h1
        by_cases h2 : s.messages.length ≤ 4
        · rw [if_pos h2]
          simp [h1, h2]
        · rw [if_neg h2]
          by_cases h3 : total_chars (effMessages s) > CHARACTER_MAX
          · rw [if_pos h3]
            simp [h1, h2, h3]
          · rw [if_neg h3]
            simp [h1, h2, h3]
            all_goals omega

/-! ## Clean-state flag reset (C8)

Embeds the two `clean_state_node` implementations: the agents one
(`apps/agents/open_canvas/graph.py` 191-207) resets every command flag;
the backend one
(`apps/backend/agents/open_canvas/nodes/post_processing.py` 148-158)
omits `highlightedCode`, `addComments`, `addLogs`, `portLanguage` and
`fixBugs` from its reset dict, so those keep their values after the
update is merged into the state. -/

/-- The agents clean-state update merged into the state. -/
def agents_clean_state_node (s : OpenCanvasState) : OpenCanvasState :=
  { s with
    next := none
    highlightedCode := none
    highlightedText := none
    language := none
    artifactLength := none
    regenerateWithEmojis := none
    readingLevel := none
    addComments := none
    addLogs := none
    portLanguage := none
    fixBugs := none
    customQuickActionId := none
    webSearchEnabled := none }

/-- The backend clean-state update merged into the state. -/
def backend_clean_state_node (s : OpenCanvasState) : OpenCanvasState :=
  { s with
    next := none
    highlightedText := none
    language := none
    artifactLength := none
    regenerateWithEmojis := none
    readingLevel := none
    customQuickActionId := none
    webSearchEnabled := none }

/-- A state whose code-highlight payload and code-theme flags are set. -/
def cleanCounterState : OpenCanvasState :=
  { highlightedCode := some ⟨3, 7⟩
    addComments := some true
    fixBugs := some true }

/-- C8 counterexample: after the backend post-processing clean-state
step, the code-highlight payload and the code-theme flags survive
untouched, contradicting the claim that every transient command flag —
including the code-highlight payload — is reset to empty. -/
theorem clean_state_counterexample :
    (backend_clean_state_node cleanCounterState).highlightedCode = some ⟨3, 7⟩
    ∧ (backend_clean_state_node cleanCounterState).addComments = some true
    ∧ (backend_clean_state_node cleanCounterState).fixBugs = some true := by
  refine ⟨rfl, rfl, rfl⟩

/-- C8 amended: the agents clean-state node resets every transient
command flag (both highlight payloads, all theme flags, the custom-action
id, the search toggle); the backend clean-state node resets the
text-highlight payload, the markdown theme flags, the custom-action id
and the search toggle, but leaves the code-highlight payload and the
code-theme flags unchanged. -/
theorem clean_state_reset (s : OpenCanvasState) :
    (agents_clean_state_node s).highlightedCode = none
    ∧ (agents_clean_state_node s).highlightedText = none
    ∧ (agents_clean_state_node s).language = none
    ∧ (agents_clean_state_node s).artifactLength = none
    ∧ (agents_clean_state_node s).regenerateWithEmojis = none
    ∧ (agents_clean_state_node s).readingLevel = none
    ∧ (agents_clean_state_node s).addComments = none
    ∧ (agents_clean_state_node s).addLogs = none
    ∧ (agents_clean_state_node s).portLanguage = none
    ∧ (agents_clean_state_node s).fixBugs = none
    ∧ (agents_clean_state_node s).customQuickActionId = none
    ∧ (agents_clean_state_node s).webSearchEnabled = none
    ∧ (backend_clean_state_node s).highlightedText = none
    ∧ (backend_clean_state_node s).language = none
    ∧ (backend_clean_state_node s).artifactLength = none
    ∧ (backend_clean_state_node s).regenerateWithEmojis = none
    ∧ (backend_clean_state_node s).readingLevel = none
    ∧ (backend_clean_state_node s).customQuickActionId = none
    ∧ (backend_clean_state_node s).webSearchEnabled = none
    ∧ (backend_clean_state_node s).highlightedCode = s.highlightedCode
    ∧ (backend_clean_state_node s).addComments = s.addComments
    ∧ (backend_clean_state_node s).addLogs = s.addLogs
    ∧ (backend_clean_state_node s).portLanguage = s.portLanguage
    ∧ (backend_clean_state_node s).fixBugs = s.fixBugs := by
  repeat' constructor

/-! ## Versioned artifact append discipline (C5)

Every node that edits an artifact builds the new version the same way
(`rewrite_artifact_utils.create_new_artifact_content` 179-212 and the
inline copies in `update_artifact_node`, `update_highlighted_text_node`,
`rewrite_artifact_theme_node`, `custom_action_node`):

    new_index = len(contents) + 1
    new_artifact = {**artifact, "currentIndex": new_index,
                    "contents": contents + [{..., "index": new_index}]}

and `generate_artifact_node` (backend `nodes/artifact.py` 100-107)
creates the initial artifact as a single version with index 1. -/

/-- The shared append step: a new version gets index
`len(contents) + 1`, is appended, and becomes current. -/
def appendVersion (a : Artifact) (c : ArtifactContent) : Artifact :=
  { currentIndex := some (a.contents.length + 1)
    contents := a.contents ++ [{ c with index := a.contents.length + 1 }] }

/-- The initial artifact produced by `generate_artifact_node`: one
version with index 1, no explicit `currentIndex` key. -/
def initialArtifact (c : ArtifactContent) : Artifact :=
  { currentIndex := none, contents := [{ c with index := 1 }] }

/-- A whole edit history: the initial generation followed by a sequence
of edits. -/
def applyEdits (c0 : ArtifactContent) (cs : List ArtifactContent) : Artifact :=
  cs.foldl appendVersion (initialArtifact c0)

/-- The version indices are exactly `1, 2, ..., n` in order. -/
def indicesOk (a : Artifact) : Prop :=
  a.contents.map (·.index) = List.range' 1 a.contents.length

/-- Largest existing version index (0 when there are none). -/
def maxIndex (a : Artifact) : Nat :=
  (a.contents.map (·.index)).foldr max 0

/-- Combined invariant: contiguous 1-based indices, the (defaulted)
current index equals the last index, and at least one version exists. -/
def artifactInv (a : Artifact) : Prop :=
  indicesOk a ∧ a.currentIndexEff = a.contents.length ∧ a.contents ≠ []

theorem foldr_max_of_le {l : List Nat} {m : Nat} (h : ∀ x ∈ l, x ≤ m) :
    l.foldr max m = m := by
  induction l with
  | nil => rfl
  | cons x l ih =>
    have hx : x ≤ m := h x (List.mem_cons_self x l)
    have : l.foldr max m = m := ih fun y hy => h y (List.mem_cons_of_mem x hy)
    simp [List.foldr_cons, this, Nat.max_eq_right hx]

theorem foldr_max_range' (n : Nat) : (List.range' 1 n).foldr max 0 = n := by
  induction n with
  | zero => rfl
  | succ n _ =>
    rw [List.range'_concat, List.foldr_append]
    simp only [List.foldr_cons, List.foldr_nil]
    have hb : max (1 + 1 * n) 0 = n + 1 := by omega
    rw [hb]
    refine foldr_max_of_le ?_
    intro x hx
    have := List.mem_range'_1.mp hx
    omega

theorem maxIndex_eq_length {a : Artifact} (h : indicesOk a) :
    maxIndex a = a.contents.length := by
  unfold maxIndex
  rw [h, foldr_max_range']

theorem indicesOk_appendVersion {a : Artifact} (h : indicesOk a)
    (c : ArtifactContent) : indicesOk (appendVersion a c) := by
  unfold indicesOk at *
  simp only [appendVersion, List.map_append, List.length_append, List.map_cons,
    List.map_nil, List.length_cons, List.length_nil]
  rw [h]
  have : List.range' 1 (a.contents.length + 1) =
      List.range' 1 a.contents.length ++ [1 + 1 * a.contents.length] :=
    List.range'_concat 1 a.contents.length
  rw [this]
  simp
  omega

theorem artifactInv_appendVersion {a : Artifact} (h : artifactInv a)
    (c : ArtifactContent) : artifactInv (appendVersion a c) := by
  refine ⟨indicesOk_appendVersion h.1 c, ?_, ?_⟩
  · simp [appendVersion, Artifact.currentIndexEff]
  · simp [appendVersion]

theorem artifactInv_foldl {cs : List ArtifactContent} {a : Artifact}
    (h : artifactInv a) : artifactInv (cs.foldl appendVersion a) := by
  induction cs generalizing a with
  | nil => exact h
  | cons c cs ih => exact ih (artifactInv_appendVersion h c)

theorem artifactInv_initial (c0 : ArtifactContent) :
    artifactInv (initialArtifact c0) := by
  refine ⟨?_, ?_, ?_⟩ <;> simp [initialArtifact, indicesOk,
    Artifact.currentIndexEff, List.range']

theorem artifactInv_applyEdits (c0 : ArtifactContent)
    (cs : List ArtifactContent) : artifactInv (applyEdits c0 cs) :=
  artifactInv_foldl (artifactInv_initial c0)

theorem currentIndexEff_mem {a : Artifact} (h : artifactInv a) :
    a.currentIndexEff ∈ a.contents.map (·.index) := by
  rw [h.1, h.2.1]
  have hn : 0 < a.contents.length := List.length_pos.mpr h.2.2
  exact List.mem_range'_1.mpr ⟨hn, by omega⟩

/-- C5: after the initial generation and any sequence of edits, the
version indices are exactly `1, 2, ..., n` (1-based, contiguous,
strictly increasing) and the current index references an existing
version; moreover each edit step on an index-contiguous artifact keeps
every existing version unchanged (the old list is a prefix), appends
exactly one version whose index is `max(existing indices) + 1`, and
points `currentIndex` at it. -/
theorem artifact_versions_append_only (c0 : ArtifactContent)
    (cs : List ArtifactContent) :
    (indicesOk (applyEdits c0 cs)
     ∧ ((applyEdits c0 cs).contents.map (·.index)).Pairwise (· < ·)
     ∧ (applyEdits c0 cs).currentIndexEff ∈
         (applyEdits c0 cs).contents.map (·.index))
    ∧ ∀ (a : Artifact) (c : ArtifactContent), indicesOk a →
        (appendVersion a c).contents.take a.contents.length = a.contents
        ∧ (appendVersion a c).contents.map (·.index)
            = a.contents.map (·.index) ++ [maxIndex a + 1]
        ∧ (appendVersion a c).currentIndex = some (maxIndex a + 1) := by
  constructor
  · have h := artifactInv_applyEdits c0 cs
    refine ⟨h.1, ?_, currentIndexEff_mem h⟩
    rw [h.1]
    exact List.pairwise_lt_range' 1 _
  · intro a c h
    have hm := maxIndex_eq_length h
    refine ⟨?_, ?_, ?_⟩
    · show (a.contents ++ [_]).take a.contents.length = a.contents
      exact List.take_left _ _
    · simp [appendVersion, hm]
    · simp [appendVersion, hm]

/-- Witness for C5 at a concrete two-edit history. -/
theorem artifact_versions_append_only_witness :
    indicesOk (applyEdits ⟨0, .text, "T", "", "A"⟩ [⟨0, .text, "T", "", "B"⟩])
    ∧ ((appendVersion (initialArtifact ⟨0, .text, "T", "", "A"⟩)
          ⟨0, .text, "T", "", "B"⟩).contents.take
        (initialArtifact ⟨0, .text, "T", "", "A"⟩).contents.length
        = (initialArtifact ⟨0, .text, "T", "", "A"⟩).contents)
    ∧ (appendVersion (initialArtifact ⟨0, .text, "T", "", "A"⟩)
          ⟨0, .text, "T", "", "B"⟩).currentIndex
        = some (maxIndex (initialArtifact ⟨0, .text, "T", "", "A"⟩) + 1) := by
  refine ⟨(artifact_versions_append_only ⟨0, .text, "T", "", "A"⟩
      [⟨0, .text, "T", "", "B"⟩]).1.1, ?_, ?_⟩
  · exact ((artifact_versions_append_only ⟨0, .text, "T", "", "A"⟩ []).2
      (initialArtifact ⟨0, .text, "T", "", "A"⟩) ⟨0, .text, "T", "", "B"⟩
      (by unfold indicesOk; decide)).1
  · exact ((artifact_versions_append_only ⟨0, .text, "T", "", "A"⟩ []).2
      (initialArtifact ⟨0, .text, "T", "", "A"⟩) ⟨0, .text, "T", "", "B"⟩
      (by unfold indicesOk; decide)).2.2

end OpenCanvas

namespace OpenCanvas

/-! ## Python string primitives

Used by the range-rewrite handlers: Python slicing `s[a:b]`, the
substring test `pat in s`, and `str.replace`. -/

/-- Python slice `s[a:b]` for nonnegative bounds (clamping past the
ends, empty when `a ≥ b`). -/
def pySlice (s : String) (a b : Nat) : String :=
  ⟨(s.data.take b).drop a⟩

/-- Python slice `s[:n]`. -/
def pyTake (s : String) (n : Nat) : String :=
  ⟨s.data.take n⟩

/-- Python slice `s[n:]`. -/
def pyDrop (s : String) (n : Nat) : String :=
  ⟨s.data.drop n⟩

/-- Python substring test `pat in s`. -/
def pyContains (s pat : String) : Bool :=
  decide (pat.data <:+: s.data)

/-- Left-to-right scan of Python `str.replace` for a nonempty pattern:
at each position, if the pattern matches, emit the replacement and skip
the match, otherwise keep the character. -/
def pyReplaceAux (pat rep : List Char) : List Char → List Char
  | [] => []
  | c :: rest =>
    if h : pat ≠ [] ∧ pat.isPrefixOf (c :: rest) then
      rep ++ pyReplaceAux pat rep ((c :: rest).drop pat.length)
    else
      c :: pyReplaceAux pat rep rest
termination_by l => l.length
decreasing_by
  · simp only [List.length_drop, List.length_cons]
    have hp : 0 < pat.length := List.length_pos.mpr h.1
    omega
  · simp

/-- Python `s.replace(pat, rep)`: replaces every occurrence, scanning
left to right; with an empty pattern Python interleaves `rep` before
every character and appends it at the end. -/
def pyReplace (s pat rep : String) : String :=
  if pat.data = [] then
    ⟨rep.data ++ s.data.flatMap (fun c => c :: rep.data)⟩
  else
    ⟨pyReplaceAux pat.data rep.data s.data⟩

/-! ## Range-rewrite handlers (C2, C3, C4)

Embeds `update_highlighted_text_node`
(`apps/backend/agents/open_canvas/nodes/artifact.py` 115-207, identical
to `apps/agents/open_canvas/graph.py` 437-532) and `update_artifact_node`
(`apps/agents/open_canvas/graph.py` 333-434).  The streamed model call is
abstracted as a `gen` oracle from the formatted prompt to the
concatenated response text; the prompts are represented structurally by
the strings formatted into their templates.  `get_formatted_reflections`
lives in the missing `utils` module, so the reflections text is passed in
as a parameter.  Every `raise ValueError` becomes a
`NodeError.validation`. -/

/-- A generation request, identified by the template it formats and the
strings inserted into it. -/
inductive GenPrompt where
  | updateHighlightedText (selectedText textBlocks : String)
  | updateArtifact (beforeHighlight highlightedText afterHighlight reflections : String)
  | followup (artifactContent reflections conversation : String)
deriving DecidableEq, Repr

/-- Node failure: `ValidationError` (a `raise ValueError` in the node)
or an upstream generation failure re-raised by the node. -/
inductive NodeError where
  | validation (msg : String)
  | upstream (msg : String)
deriving DecidableEq, Repr

/-- The dict a node returns, merged into the graph state. -/
structure NodeUpdate where
  artifact : Option Artifact := none
  messages : List Message := []
deriving DecidableEq, Repr

/-- A node run: the generation calls it made, in order, and its result. -/
structure NodeOutcome where
  genCalls : List GenPrompt
  result : Except NodeError NodeUpdate

/-- `update_highlighted_text_node`: markdown range rewrite.  Validation
order follows the source: artifact, markdown kind, highlight payload,
recent human message, then (after the generation call) the previous
content lookup and the exact-substring check, then the append. -/
def update_highlighted_text_node (gen : GenPrompt → String)
    (s : OpenCanvasState) : NodeOutcome :=
  match s.artifact with
  | none => ⟨[], .error (.validation "No artifact found")⟩
  | some art =>
    match get_artifact_content art with
    | none => ⟨[], .error (.validation "No artifact found")⟩
    | some cur =>
      if cur.kind != .text then
        ⟨[], .error (.validation "Artifact is not markdown content")⟩
      else
        match s.highlightedText with
        | none =>
          ⟨[], .error (.validation
            "Cannot partially regenerate an artifact without a highlight")⟩
        | some hl =>
          let prompt := GenPrompt.updateHighlightedText hl.selectedText hl.markdownBlock
          match (effMessages s).getLast? with
          | none => ⟨[], .error (.validation "Expected a human message")⟩
          | some m =>
            if m.role != .human then
              ⟨[], .error (.validation "Expected a human message")⟩
            else
              let response := gen prompt
              let contents := art.contents
              match contents.find?
                  (fun c => c.index == art.currentIndexEff
                    && c.kind == ContentKind.text) with
              | none => ⟨[prompt], .error (.validation "Previous content not found")⟩
              | some prev =>
                if !(pyContains hl.fullMarkdown hl.markdownBlock) then
                  ⟨[prompt], .error (.validation
                    "Selected text not found in current content")⟩
                else
                  let newFullMarkdown :=
                    pyReplace hl.fullMarkdown hl.markdownBlock response
                  let newIndex := contents.length + 1
                  ⟨[prompt], .ok
                    { artifact := some
                        { art with
                          currentIndex := some newIndex
                          contents := contents ++
                            [{ prev with index := newIndex, body := newFullMarkdown }] } }⟩

/-- `update_artifact_node`: code range rewrite.  The prompt window takes
a fixed 500-character margin each side of the highlighted span
(`max(0, start - 500)` and `min(len, end + 500)`), and the response is
spliced back into exactly `[start, end)`. -/
def update_artifact_node (gen : GenPrompt → String) (reflections : String)
    (s : OpenCanvasState) : NodeOutcome :=
  match s.artifact with
  | none => ⟨[], .error (.validation "No artifact found")⟩
  | some art =>
    match get_artifact_content art with
    | none => ⟨[], .error (.validation "No artifact found")⟩
    | some cur =>
      if cur.kind != .code then
        ⟨[], .error (.validation "Current artifact content is not code")⟩
      else
        match s.highlightedCode with
        | none =>
          ⟨[], .error (.validation
            "Cannot partially regenerate an artifact without a highlight")⟩
        | some hl =>
          let code := cur.body
          let startIdx := hl.startCharIndex
          let endIdx := hl.endCharIndex
          let winStart := startIdx - 500
          let winEnd := min code.length (endIdx + 500)
          let beforeHighlight := pySlice code winStart startIdx
          let highlightedText := pySlice code startIdx endIdx
          let afterHighlight := pySlice code endIdx winEnd
          let prompt := GenPrompt.updateArtifact
            beforeHighlight highlightedText afterHighlight reflections
          match (effMessages s).reverse.find? (fun m => m.role == .human) with
          | none => ⟨[], .error (.validation "No recent human message found")⟩
          | some _ =>
            let content := gen prompt
            let entireTextBefore := pyTake code startIdx
            let entireTextAfter := pyDrop code endIdx
            let entireUpdatedContent := entireTextBefore ++ content ++ entireTextAfter
            let newIndex := art.contents.length + 1
            ⟨[prompt], .ok
              { artifact := some
                  { art with
                    currentIndex := some newIndex
                    contents := art.contents ++
                      [{ cur with index := newIndex, body := entireUpdatedContent }] } }⟩

end OpenCanvas

namespace OpenCanvas

/-- C4: with no artifact in the state, both range-rewrite handlers fail
with a `ValidationError` and make no generation call at all. -/
theorem range_rewrite_no_artifact (gen₁ gen₂ : GenPrompt → String)
    (reflections : String) (s : OpenCanvasState) (h : s.artifact = none) :
    update_artifact_node gen₁ reflections s =
      ⟨[], .error (.validation "No artifact found")⟩
    ∧ update_highlighted_text_node gen₂ s =
        ⟨[], .error (.validation "No artifact found")⟩ := by
  unfold update_artifact_node update_highlighted_text_node
  rw [h]
  exact ⟨rfl, rfl⟩

/-- Witness for C4 at the empty state. -/
theorem range_rewrite_no_artifact_witness :
    update_artifact_node (fun _ => "gen") "refl" {} =
      ⟨[], .error (.validation "No artifact found")⟩
    ∧ update_highlighted_text_node (fun _ => "gen") {} =
        ⟨[], .error (.validation "No artifact found")⟩ :=
  range_rewrite_no_artifact (fun _ => "gen") (fun _ => "gen") "refl" {} rfl

/-- C2: under the handler's preconditions, the markdown range rewrite
issues exactly one generation call and appends a version whose content is
the highlight's full document with the containing block replaced
(Python `str.replace`, every exact occurrence) by the generated text;
when the containing block is not an exact substring of the full
document it fails with a `ValidationError` instead. -/
theorem markdown_range_rewrite (gen : GenPrompt → String)
    (s : OpenCanvasState) (art : Artifact) (cur prev : ArtifactContent)
    (hl : TextHighlight) (m : Message)
    (ha : s.artifact = some art)
    (hcur : get_artifact_content art = some cur)
    (hk : cur.kind = .text)
    (hhl : s.highlightedText = some hl)
    (hm : (effMessages s).getLast? = some m)
    (hmh : m.role = .human)
    (hprev : art.contents.find?
        (fun c => c.index == art.currentIndexEff && c.kind == ContentKind.text)
      = some prev) :
    (update_highlighted_text_node gen s).genCalls =
      [GenPrompt.updateHighlightedText hl.selectedText hl.markdownBlock]
    ∧ (pyContains hl.fullMarkdown hl.markdownBlock = true →
        (update_highlighted_text_node gen s).result = .ok
          { artifact := some
              { art with
                currentIndex := some (art.contents.length + 1)
                contents := art.contents ++
                  [{ prev with
                      index := art.contents.length + 1
                      body := pyReplace hl.fullMarkdown hl.markdownBlock
                        (gen (GenPrompt.updateHighlightedText
                          hl.selectedText hl.markdownBlock)) }] } })
    ∧ (pyContains hl.fullMarkdown hl.markdownBlock = false →
        (update_highlighted_text_node gen s).result =
          .error (.validation "Selected text not found in current content")) := by
  unfold update_highlighted_text_node
  rw [ha]
  simp only [hcur, hk, hhl, hm, hmh, hprev, bne_self_eq_false, Bool.false_eq_true,
    if_false, ite_false]
  by_cases hc : pyContains hl.fullMarkdown hl.markdownBlock
  · simp [hc]
  · simp [hc]

/-- Witness for C2: a concrete rewrite of the block `"world"` inside
`"hello world"`. -/
theorem markdown_range_rewrite_witness :
    (update_highlighted_text_node (fun _ => "mars")
        { messages := [⟨.human, "edit please"⟩]
          artifact := some ⟨some 1, [⟨1, .text, "T", "", "hello world"⟩]⟩
          highlightedText := some ⟨"world", "world", "hello world"⟩ }).genCalls =
      [GenPrompt.updateHighlightedText "world" "world"]
    ∧ (pyContains "hello world" "world" = true →
        (update_highlighted_text_node (fun _ => "mars")
          { messages := [⟨.human, "edit please"⟩]
            artifact := some ⟨some 1, [⟨1, .text, "T", "", "hello world"⟩]⟩
            highlightedText := some ⟨"world", "world", "hello world"⟩ }).result = .ok
          { artifact := some
              { currentIndex := some 2
                contents := [⟨1, .text, "T", "", "hello world"⟩,
                  ⟨2, .text, "T", "", pyReplace "hello world" "world" "mars"⟩] } }) := by
  have h := markdown_range_rewrite (fun _ => "mars")
    { messages := [⟨.human, "edit please"⟩]
      artifact := some ⟨some 1, [⟨1, .text, "T", "", "hello world"⟩]⟩
      highlightedText := some ⟨"world", "world", "hello world"⟩ }
    ⟨some 1, [⟨1, .text, "T", "", "hello world"⟩]⟩
    ⟨1, .text, "T", "", "hello world"⟩ ⟨1, .text, "T", "", "hello world"⟩
    ⟨"world", "world", "hello world"⟩ ⟨.human, "edit please"⟩
    rfl (by decide) rfl rfl rfl rfl (by decide)
  exact ⟨h.1, fun hc => h.2.1 hc⟩

end OpenCanvas

namespace OpenCanvas

/-- C3: under the handler's preconditions (code artifact, highlight with
`start ≤ end ≤ len`), the code range rewrite sends exactly one generation
call whose window is the highlighted span padded by the fixed
500-character margin on each side, splices the response into exactly
`[start, end)` of the original content, and appends the result as a new
version; every character before `start` and everything from `end` onward
of the original survives unchanged around the spliced text. -/
theorem code_range_rewrite (gen : GenPrompt → String) (reflections : String)
    (s : OpenCanvasState) (art : Artifact) (cur : ArtifactContent)
    (hl : CodeHighlight) (m : Message)
    (ha : s.artifact = some art)
    (hcur : get_artifact_content art = some cur)
    (hk : cur.kind = .code)
    (hhl : s.highlightedCode = some hl)
    (hm : (effMessages s).reverse.find? (fun x => x.role == .human) = some m)
    (hse : hl.startCharIndex ≤ hl.endCharIndex)
    (hel : hl.endCharIndex ≤ cur.body.length) :
    (update_artifact_node gen reflections s).genCalls =
      [GenPrompt.updateArtifact
        (pySlice cur.body (hl.startCharIndex - 500) hl.startCharIndex)
        (pySlice cur.body hl.startCharIndex hl.endCharIndex)
        (pySlice cur.body hl.endCharIndex
          (min cur.body.length (hl.endCharIndex + 500)))
        reflections]
    ∧ (update_artifact_node gen reflections s).result = .ok
        { artifact := some
            { art with
              currentIndex := some (art.contents.length + 1)
              contents := art.contents ++
                [{ cur with
                    index := art.contents.length + 1
                    body := pyTake cur.body hl.startCharIndex ++
                      gen (GenPrompt.updateArtifact
                        (pySlice cur.body (hl.startCharIndex - 500) hl.startCharIndex)
                        (pySlice cur.body hl.startCharIndex hl.endCharIndex)
                        (pySlice cur.body hl.endCharIndex
                          (min cur.body.length (hl.endCharIndex + 500)))
                        reflections) ++
                      pyDrop cur.body hl.endCharIndex }] } }
    ∧ ((pyTake cur.body hl.startCharIndex ++
          gen (GenPrompt.updateArtifact
            (pySlice cur.body (hl.startCharIndex - 500) hl.startCharIndex)
            (pySlice cur.body hl.startCharIndex hl.endCharIndex)
            (pySlice cur.body hl.endCharIndex
              (min cur.body.length (hl.endCharIndex + 500)))
            reflections) ++
          pyDrop cur.body hl.endCharIndex).data.take hl.startCharIndex
        = cur.body.data.take hl.startCharIndex)
    ∧ ((pyTake cur.body hl.startCharIndex ++
          gen (GenPrompt.updateArtifact
            (pySlice cur.body (hl.startCharIndex - 500) hl.startCharIndex)
            (pySlice cur.body hl.startCharIndex hl.endCharIndex)
            (pySlice cur.body hl.endCharIndex
              (min cur.body.length (hl.endCharIndex + 500)))
            reflections) ++
          pyDrop cur.body hl.endCharIndex).data.drop
            (hl.startCharIndex +
              (gen (GenPrompt.updateArtifact
                (pySlice cur.body (hl.startCharIndex - 500) hl.startCharIndex)
                (pySlice cur.body hl.startCharIndex hl.endCharIndex)
                (pySlice cur.body hl.endCharIndex
                  (min cur.body.length (hl.endCharIndex + 500)))
                reflections)).length)
        = cur.body.data.drop hl.endCharIndex) := by
  have hst : hl.startCharIndex ≤ cur.body.length := le_trans hse hel
  set response := gen (GenPrompt.updateArtifact
    (pySlice cur.body (hl.startCharIndex - 500) hl.startCharIndex)
    (pySlice cur.body hl.startCharIndex hl.endCharIndex)
    (pySlice cur.body hl.endCharIndex
      (min cur.body.length (hl.endCharIndex + 500)))
    reflections) with hresp
  have hdata : (pyTake cur.body hl.startCharIndex ++ response ++
      pyDrop cur.body hl.endCharIndex).data
      = cur.body.data.take hl.startCharIndex ++ response.data ++
        cur.body.data.drop hl.endCharIndex := by
    rw [String.data_append, String.data_append]
    rfl
  have htakelen : (cur.body.data.take hl.startCharIndex).length
      = hl.startCharIndex := by
    rw [List.length_take]
    exact Nat.min_eq_left hst
  refine ⟨?_, ?_, ?_, ?_⟩
  · unfold update_artifact_node
    rw [ha]
    simp only [hcur, hk, hhl, hm, bne_self_eq_false, Bool.false_eq_true, if_false]
  · unfold update_artifact_node
    rw [ha]
    simp only [hcur, hk, hhl, hm, bne_self_eq_false, Bool.false_eq_true, if_false]
  · rw [hdata, List.append_assoc]
    exact List.take_left' htakelen
  · rw [hdata]
    refine List.drop_left' ?_
    rw [List.length_append, htakelen]
    rfl

end OpenCanvas

namespace OpenCanvas

/-- Witness for C3: splicing `"XY"` into `[2, 5)` of `"abcdefghij"`
with the 500-margin window clamped to the whole string. -/
theorem code_range_rewrite_witness :
    (update_artifact_node (fun _ => "XY") ""
        { messages := [⟨.human, "fix"⟩]
          artifact := some ⟨some 1, [⟨1, .code, "T", "python", "abcdefghij"⟩]⟩
          highlightedCode := some ⟨2, 5⟩ }).genCalls =
      [GenPrompt.updateArtifact "ab" "cde" "fghij" ""]
    ∧ (update_artifact_node (fun _ => "XY") ""
        { messages := [⟨.human, "fix"⟩]
          artifact := some ⟨some 1, [⟨1, .code, "T", "python", "abcdefghij"⟩]⟩
          highlightedCode := some ⟨2, 5⟩ }).result = .ok
        { artifact := some ⟨some 2,
            [⟨1, .code, "T", "python", "abcdefghij"⟩,
             ⟨2, .code, "T", "python", "abXYfghij"⟩]⟩ } := by
  have h := code_range_rewrite (fun _ => "XY") ""
    { messages := [⟨.human, "fix"⟩]
      artifact := some ⟨some 1, [⟨1, .code, "T", "python", "abcdefghij"⟩]⟩
      highlightedCode := some ⟨2, 5⟩ }
    ⟨some 1, [⟨1, .code, "T", "python", "abcdefghij"⟩]⟩
    ⟨1, .code, "T", "python", "abcdefghij"⟩ ⟨2, 5⟩ ⟨.human, "fix"⟩
    rfl (by decide) rfl rfl (by decide) (by decide) (by decide)
  refine ⟨h.1.trans (by decide), ?_⟩
  rw [h.2.1]
  rfl

end OpenCanvas

namespace OpenCanvas

/-! ## Follow-up generation and the oversize path (C6)

Embeds `generate_followup_node`
(`apps/backend/agents/open_canvas/nodes/post_processing.py` 22-106).
All size thresholds are exact on integer sizes: `MAX_SAFE_INPUT_SIZE`
is `200 * 1024 = 204800`, the 20% margin bound `204800 * 1.2` excludes
exactly the integers `≤ 245760`, the 60% artifact bound `204800 * 0.6`
excludes exactly the integers `≤ 122880`, and `int(204800 * 0.5)` is
`102400`.  `estimate_input_size`, `truncate_content` and
`format_messages` live in the missing `core/utils.py` and are modelled
from the spec below; the fixed text of `FOLLOWUP_ARTIFACT_PROMPT`
(`apps/agents/open_canvas/prompts.py`) contributes a constant 1574
characters to the assembled prompt, so the prompt is represented by the
three formatted fields plus that constant. -/

/-- `MAX_SAFE_INPUT_SIZE = 200 * 1024`. -/
def MAX_SAFE_INPUT_SIZE : Nat := 200 * 1024

/-- Character count of the fixed template text of
`FOLLOWUP_ARTIFACT_PROMPT` (its length minus the three placeholder
fields). -/
def FOLLOWUP_PROMPT_FIXED_CHARS : Nat := 1574

/-- The substituted conversation text on the degraded path. -/
def TRUNCATION_MARKER : String :=
  "[Conversation history truncated due to large artifact/reflections]"

/-- The fixed fallback reply returned when the model reports the input
is too long. -/
def INPUT_TOO_LARGE_REPLY : String :=
  "I apologize, but the input is too large for me to process. Please try with a smaller artifact or shorter conversation history."

/-- Modelled from the spec: `estimate_input_size` (missing
`core/utils.py`) measures a text by its character count. -/
def estimate_input_size (s : String) : Nat := s.length

/-- Modelled from the spec: `truncate_content` (missing
`core/utils.py`) keeps a prefix of at most the given size. -/
def truncate_content (s : String) (maxLen : Nat) : String := pyTake s maxLen

/-- Transcript serialization of a message list (one content per line). -/
def serialize_messages (msgs : List Message) : String :=
  String.join (msgs.map (fun m => m.content ++ "\n"))

/-- Modelled from the spec: `format_messages(messages, max_length)`
(missing `core/utils.py`) serializes the conversation, dropping the
oldest messages first until the transcript fits the budget. -/
def format_messages : List Message → Int → String
  | [], _ => ""
  | m :: rest, maxLen =>
    if ((serialize_messages (m :: rest)).length : Int) ≤ maxLen then
      serialize_messages (m :: rest)
    else format_messages rest maxLen

/-- Python `str.lower` (character-wise). -/
def pyLower (s : String) : String := s.map Char.toLower

/-- `"too long" in error_msg.lower() or "Input is too long" in error_msg`. -/
def is_too_long_error (e : String) : Bool :=
  pyContains (pyLower e) "too long" || pyContains e "Input is too long"

/-- The artifact content string the follow-up node reads
(`current.get("fullMarkdown", "")`, empty when there is no artifact or
no current content). -/
def followup_artifact_content (s : OpenCanvasState) : String :=
  match s.artifact with
  | some a =>
    match get_artifact_content a with
    | some c => c.body
    | none => ""
  | none => ""

/-- `available_for_conversation`, a signed quantity:
`MAX_SAFE_INPUT_SIZE - artifact_size - reflections_size - 5000`. -/
def followup_available (reflectionsText : String) (s : OpenCanvasState) : Int :=
  (MAX_SAFE_INPUT_SIZE : Int)
    - estimate_input_size (followup_artifact_content s)
    - estimate_input_size reflectionsText - 5000

/-- The prompt the follow-up node assembles: when the remaining budget is
positive the conversation is formatted into it; otherwise the
conversation is replaced by the truncation marker and the artifact
content is clipped to 102400 characters when it alone exceeds 122880. -/
def followup_prompt (reflectionsText : String) (s : OpenCanvasState) : GenPrompt :=
  let artifactContent := followup_artifact_content s
  let available := followup_available reflectionsText s
  if 0 < available then
    GenPrompt.followup artifactContent reflectionsText
      (format_messages s.messages available)
  else
    GenPrompt.followup
      (if 122880 < (estimate_input_size artifactContent : Int) then
        truncate_content artifactContent 102400
      else artifactContent)
      reflectionsText TRUNCATION_MARKER

/-- Total size of the assembled prompt
(`estimate_input_size(prompt)` in the source): the fixed template text
plus the three formatted fields. -/
def followup_prompt_size (artifactContent reflectionsText conversation : String) : Nat :=
  FOLLOWUP_PROMPT_FIXED_CHARS + artifactContent.length
    + reflectionsText.length + conversation.length

/-- `generate_followup_node`: assembles the budgeted prompt, always
invokes the model once (the oversize case only logs a warning), and
substitutes the fixed `INPUT_TOO_LARGE_REPLY` exactly when the model
call raises an error whose message indicates the input was too long;
other errors propagate. -/
def generate_followup_node (gen : GenPrompt → Except String String)
    (reflectionsText : String) (s : OpenCanvasState) : NodeOutcome :=
  let prompt := followup_prompt reflectionsText s
  match gen prompt with
  | .ok t => ⟨[prompt], .ok { messages := [⟨.ai, t⟩] }⟩
  | .error e =>
    if is_too_long_error e then
      ⟨[prompt], .ok { messages := [⟨.ai, INPUT_TOO_LARGE_REPLY⟩] }⟩
    else ⟨[prompt], .error (.upstream e)⟩

end OpenCanvas

namespace OpenCanvas

/-- Reflections text of 250,000 characters. -/
def bigReflections : String := ⟨List.replicate 250000 'a'⟩

theorem bigReflections_length : bigReflections.length = 250000 :=
  calc bigReflections.length = (List.replicate 250000 'a').length := rfl
    _ = 250000 := List.length_replicate 250000 'a'

/-- Prompt size with empty artifact content and the truncation marker as
conversation, as a function of the reflections size. -/
theorem followup_prompt_size_empty (r : String) :
    followup_prompt_size "" r TRUNCATION_MARKER = 1640 + r.length := by
  show FOLLOWUP_PROMPT_FIXED_CHARS + ("" : String).length + r.length
      + TRUNCATION_MARKER.length = 1640 + r.length
  rw [show ("" : String).length = 0 from rfl,
    show TRUNCATION_MARKER.length = 66 from rfl]
  show 1574 + 0 + r.length + 66 = 1640 + r.length
  omega

/-- C6 counterexample: with 250,000 characters of reflections the
assembled prompt measures 251,640 characters, beyond the 20% margin
(245,760), yet the node still performs the generation call and, when the
call succeeds, returns the model's reply rather than the fixed
"input too large" reply. -/
theorem followup_oversize_counterexample :
    followup_prompt bigReflections {} =
      GenPrompt.followup "" bigReflections TRUNCATION_MARKER
    ∧ followup_prompt_size "" bigReflections TRUNCATION_MARKER = 251640
    ∧ 245760 < followup_prompt_size "" bigReflections TRUNCATION_MARKER
    ∧ (generate_followup_node (fun _ => .ok "Done") bigReflections {}).genCalls =
        [GenPrompt.followup "" bigReflections TRUNCATION_MARKER]
    ∧ (generate_followup_node (fun _ => .ok "Done") bigReflections {}).result =
        .ok { messages := [⟨.ai, "Done"⟩] }
    ∧ "Done" ≠ INPUT_TOO_LARGE_REPLY := by
  have hac : followup_artifact_content {} = "" := rfl
  have h0 : ("" : String).length = 0 := rfl
  have hav : followup_available bigReflections {} = -50200 := by
    simp only [followup_available, estimate_input_size, hac, bigReflections_length,
      MAX_SAFE_INPUT_SIZE, h0]
    norm_num
  have hp : followup_prompt bigReflections {} =
      GenPrompt.followup "" bigReflections TRUNCATION_MARKER := by
    simp only [followup_prompt, hac, hav, estimate_input_size, h0]
    norm_num
  have hsz : followup_prompt_size "" bigReflections TRUNCATION_MARKER = 251640 := by
    rw [followup_prompt_size_empty, bigReflections_length]
  refine ⟨hp, hsz, by rw [hsz]; norm_num, ?_, rfl, ?_⟩
  · simp only [generate_followup_node, hp]
  · intro hcontra
    have hlen : ("Done").length = INPUT_TOO_LARGE_REPLY.length := by rw [hcontra]
    rw [show ("Done").length = 4 from rfl,
      show INPUT_TOO_LARGE_REPLY.length = 126 from rfl] at hlen
    omega

end OpenCanvas

namespace OpenCanvas

/-- C6 amended: the follow-up node always makes exactly one generation
call on the assembled prompt (oversize only degrades the prompt contents
and logs); the fixed "input too large" reply is substituted exactly when
that call fails with an error message indicating the input was too long,
and any other failure propagates. -/
theorem followup_too_long_fallback (gen : GenPrompt → Except String String)
    (reflectionsText : String) (s : OpenCanvasState) :
    (generate_followup_node gen reflectionsText s).genCalls =
      [followup_prompt reflectionsText s]
    ∧ (∀ t, gen (followup_prompt reflectionsText s) = .ok t →
        (generate_followup_node gen reflectionsText s).result =
          .ok { messages := [⟨.ai, t⟩] })
    ∧ (∀ e, gen (followup_prompt reflectionsText s) = .error e →
        is_too_long_error e = true →
        (generate_followup_node gen reflectionsText s).result =
          .ok { messages := [⟨.ai, INPUT_TOO_LARGE_REPLY⟩] })
    ∧ (∀ e, gen (followup_prompt reflectionsText s) = .error e →
        is_too_long_error e = false →
        (generate_followup_node gen reflectionsText s).result =
          .error (.upstream e)) := by
  cases hg : gen (followup_prompt reflectionsText s) with
  | ok t =>
    refine ⟨by simp [generate_followup_node, hg], ?_, ?_, ?_⟩
    · intro t2 ht2
      cases ht2
      simp [generate_followup_node, hg]
    · intro e he
      exact absurd he (by simp)
    · intro e he
      exact absurd he (by simp)
  | error e =>
    by_cases hl : is_too_long_error e
    · refine ⟨by simp [generate_followup_node, hg, hl], ?_, ?_, ?_⟩
      · intro t2 ht2
        exact absurd ht2 (by simp)
      · intro e2 he2 _
        cases he2
        simp [generate_followup_node, hg, hl]
      · intro e2 he2 hl2
        cases he2
        rw [hl] at hl2
        cases hl2
    · refine ⟨by simp [generate_followup_node, hg, hl], ?_, ?_, ?_⟩
      · intro t2 ht2
        exact absurd ht2 (by simp)
      · intro e2 he2 hl2
        cases he2
        rw [hl2] at hl
        cases hl rfl
      · intro e2 he2 _
        cases he2
        simp [generate_followup_node, hg, hl]

/-- Witness for the amended C6: a generation failure reporting
"Input is too long" yields the fixed fallback reply. -/
theorem followup_too_long_fallback_witness :
    (generate_followup_node (fun _ => .error "Input is too long") "" {}).result =
      .ok { messages := [⟨.ai, INPUT_TOO_LARGE_REPLY⟩] }
    ∧ (generate_followup_node (fun _ => .error "Input is too long") "" {}).genCalls =
        [followup_prompt "" {}] := by
  have htl : is_too_long_error "Input is too long" = true := by
    have h2 : pyContains "Input is too long" "Input is too long" = true := by
      unfold pyContains
      exact decide_eq_true (List.infix_refl _)
    unfold is_too_long_error
    rw [h2, Bool.or_true]
  refine ⟨(followup_too_long_fallback (fun _ => .error "Input is too long") "" {}).2.2.1
      "Input is too long" rfl htl,
    (followup_too_long_fallback (fun _ => .error "Input is too long") "" {}).1⟩

end OpenCanvas
